import Mathlib

/-!
Verification of `src/srcinit.py` (feivegian/srcinit), a project scaffolding
tool.  The embedding models:

* the cache directory (`SYNC_LOCAL_DIR`) holding the current archive
  (`SYNC_LOCAL_FILE`) and at most one backup (`SYNC_LOCAL_FILE_OLD`) as a
  `CacheState` record with one slot per fixed path;
* the zip archive as a list of `ZipEntry` (filename plus byte content);
* the operations `sync` (with its `rollback` flag), `reset`, `list` and
  `generate` as state-passing functions translated line by line from the
  Python source; the remote fetch is a `FetchResult` parameter covering the
  outcomes the source's `try/except` distinguishes (completed download,
  `requests.RequestException`, `KeyboardInterrupt` before streaming);
* the destination directory used by `generate` as a small POSIX-style
  filesystem `Fs` (files keyed by component paths, plus the set of existing
  directories), so that `open(path, "wb")` failing when the parent directory
  does not exist is captured;
* the archive file handle lifecycle as a trace of `AEvent`s (`opened` /
  `closed`) emitted by `list` and `generate`.
-/

namespace Srcinit

/-! ### Character-list string helpers

The Python source manipulates paths with `str.startswith`, `str.endswith`,
`str.removesuffix`, slicing, `str.lower` and `in`.  These are embedded over
`String.data` so that everything reduces well in the kernel. -/

def strStartsWith (s p : String) : Bool :=
  p.data.isPrefixOf s.data

def strEndsWith (s p : String) : Bool :=
  p.data.isSuffixOf s.data

/-- Python `s.removesuffix(p)`: drop `p` from the end of `s` when present. -/
def strRemovesuffix (s p : String) : String :=
  if strEndsWith s p then String.mk (s.data.take (s.data.length - p.data.length)) else s

/-- Python slicing `s[n:]`. -/
def strDropLen (s : String) (n : Nat) : String :=
  String.mk (s.data.drop n)

/-- Python `s.lower()` (ASCII is all the source compares). -/
def strToLower (s : String) : String :=
  String.mk (s.data.map Char.toLower)

def strContainsChar (s : String) (c : Char) : Bool :=
  s.data.contains c

/-- Split a path string on the separator `/`, as the OS interprets the
paths handed to `open`/`os.path.join`. -/
def splitPathAux : List Char → List Char → List String
  | [], acc => [String.mk acc.reverse]
  | c :: rest, acc =>
    if c = '/' then String.mk acc.reverse :: splitPathAux rest []
    else splitPathAux rest (c :: acc)

def splitPath (s : String) : List String :=
  splitPathAux s.data []

/-! ### Data model -/

/-- One record of the cached zip archive: `ZipInfo.filename` plus the bytes
`zip.open(entry)` yields (empty for directory entries). -/
structure ZipEntry where
  filename : String
  content : List Nat
deriving DecidableEq

/-- Python `ZipInfo.is_dir()`: the filename ends with the separator. -/
def ZipEntry.is_dir (e : ZipEntry) : Bool :=
  strEndsWith e.filename "/"

/-- The cached archive, identified with its parsed entry list (entry order is
archive order). -/
abbrev Archive := List ZipEntry

/-- On-disk cache directory state: one slot for `SYNC_LOCAL_FILE`, one for
`SYNC_LOCAL_FILE_OLD`, and whether `SYNC_LOCAL_DIR` itself exists. -/
structure CacheState where
  current : Option Archive
  backup : Option Archive
  dirExists : Bool
deriving DecidableEq

/-- Outcome of `requests.get(SYNC_REMOTE_URL, stream=True)` and the streaming
copy, as distinguished by the source's `try/except` blocks:
a completed download, a `requests.RequestException`, or a
`KeyboardInterrupt` raised before streaming begins. -/
inductive FetchResult
  | success (ar : Archive)
  | requestError
  | keyboardInterrupt
deriving DecidableEq

/-- The confirmation-decline test shared by `sync(rollback=True)` and
`reset`: `len(answer) < 1 or answer.lower() == "n"`. -/
def declined (answer : String) : Bool :=
  decide (answer.data.length < 1) || strToLower answer == "n"

/-! ### CacheStore operations (`sync`, `reset`) -/

/-- `sync(rollback)` from the source, lines 55-124.  With `rollback = true`:
no backup is a success no-op; a declined confirmation is a success no-op;
otherwise the current file (if any) is removed and the backup renamed into
the current slot.  With `rollback = false`: an existing current archive is
renamed into the backup slot (discarding any prior backup); otherwise the
cache directory is created if missing; then the fetch outcome decides the
result: a request error returns `false`, a keyboard interrupt returns `true`
with nothing written, and a completed download writes the current slot and
returns `true`. -/
def sync (s : CacheState) (rollback : Bool) (answer : String) (fetch : FetchResult) :
    CacheState × Bool :=
  if rollback then
    match s.backup with
    | none => (s, true)
    | some b =>
      if declined answer then (s, true)
      else ({ s with current := some b, backup := none }, true)
  else
    let s1 : CacheState :=
      match s.current with
      | some c => { s with current := none, backup := some c }
      | none => if !s.dirExists then { s with dirExists := true } else s
    match fetch with
    | .requestError => (s1, false)
    | .keyboardInterrupt => (s1, true)
    | .success ar => ({ s1 with current := some ar }, true)

/-- `reset()` from the source, lines 127-147.  No current archive: returns
Python `None` (modelled `none`) and changes nothing.  A declined
confirmation returns `False` and changes nothing.  Otherwise
`shutil.rmtree(SYNC_LOCAL_DIR)` removes current, backup and the directory
itself, and the call returns `True`. -/
def reset (s : CacheState) (answer : String) : CacheState × Option Bool :=
  match s.current with
  | none => (s, none)
  | some _ =>
    if declined answer then (s, some false)
    else (⟨none, none, false⟩, some true)

/-! ### Archive handle events -/

/-- Lifecycle events of the archive file handle (`ZipFile(SYNC_LOCAL_FILE)` /
`zip.close()`). -/
inductive AEvent
  | opened
  | closed
deriving DecidableEq, BEq

/-- A trace in which every opened archive handle has been closed again. -/
def handlesClosed (tr : List AEvent) : Bool :=
  tr.count .opened == tr.count .closed

/-! ### TemplateCatalog (`list`) -/

/-- The entry loop of `list()`, lines 166-175: skip non-directory entries,
collect `filename.removesuffix("/")` for every directory entry, in archive
entry order. -/
def templateListLoop : List ZipEntry → List String
  | [] => []
  | e :: rest =>
    if e.is_dir then strRemovesuffix e.filename "/" :: templateListLoop rest
    else templateListLoop rest

/-- Result of a `list()` call: the returned names, or an uncaught exception
(`ZipFile` on a missing file). -/
inductive ListResult
  | ok (names : List String)
  | crash
deriving DecidableEq

structure ListOut where
  state : CacheState
  result : ListResult
  trace : List AEvent
deriving DecidableEq

/-- `list()` from the source, lines 150-175.  If no current archive exists it
first runs `sync()`; a failed sync returns `[]`.  Then it opens the archive,
takes `infolist()`, closes the handle, and runs the entry loop.  Opening a
still-missing archive file (possible when the sync was interrupted, since
that path returns `True`) raises, modelled as `crash`. -/
def listOp (s : CacheState) (fetch : FetchResult) : ListOut :=
  match s.current with
  | some ar => ⟨s, .ok (templateListLoop ar), [.opened, .closed]⟩
  | none =>
    let r := sync s false "" fetch
    if r.2 then
      match r.1.current with
      | some ar => ⟨r.1, .ok (templateListLoop ar), [.opened, .closed]⟩
      | none => ⟨r.1, .crash, []⟩
    else ⟨r.1, .ok [], []⟩

/-! ### Destination filesystem model for `generate` -/

/-- The destination directory's subtree: files keyed by their component path
relative to the destination root, plus the set of directories that exist
(the root itself is `[]`). -/
structure Fs where
  files : List (List String × List Nat)
  dirs : List (List String)
deriving DecidableEq

def addDir (dirs : List (List String)) (p : List String) : List (List String) :=
  if p ∈ dirs then dirs else p :: dirs

def setFile (files : List (List String × List Nat)) (p : List String) (c : List Nat) :
    List (List String × List Nat) :=
  match files with
  | [] => [(p, c)]
  | (q, d) :: rest => if q = p then (p, c) :: rest else (q, d) :: setFile rest p c

def lookupFile (fs : Fs) (p : List String) : Option (List Nat) :=
  go fs.files
where
  go : List (List String × List Nat) → Option (List Nat)
    | [] => none
    | (q, d) :: rest => if q = p then some d else go rest

/-- POSIX `open(path, "wb")` succeeds only when the path is a proper file
path (nonempty, no trailing separator), its immediate parent directory
exists, and the path itself is not a directory. -/
def canWrite (fs : Fs) (p : List String) : Bool :=
  decide (p ≠ []) && decide (p.getLast? ≠ some "") &&
    decide (p.dropLast ∈ fs.dirs) && decide (p ∉ fs.dirs)

/-! ### TemplateGenerator (`generate`) -/

/-- Result of a `generate()` call: `ok` is Python `True`, `notFound` is the
`return False` branch, `fsError` is an uncaught `OSError` while opening the
output path for writing, `crashed` is any other uncaught exception. -/
inductive GenResult
  | ok
  | notFound
  | fsError (path : List String)
  | crashed
deriving DecidableEq

structure GenOut where
  state : CacheState
  fs : Fs
  result : GenResult
  trace : List AEvent
deriving DecidableEq

/-- The entry loop of `generate()`, lines 196-209.  Entries that do not start
with `template + "/"`, or equal the bare marker, are skipped.  For a matching
entry the output path is `destination` joined with the part after the prefix;
`os.makedirs(destination, exist_ok=True)` creates only the destination root;
then the entry's bytes are written to the output path — when that open fails
(e.g. the output's parent directory does not exist) the exception aborts the
whole call. -/
def generateLoop (fs : Fs) (entries : List ZipEntry) (name : String) : Fs × GenResult :=
  match entries with
  | [] => (fs, .ok)
  | e :: rest =>
    if !strStartsWith e.filename name || e.filename == name then
      generateLoop fs rest name
    else
      let out := splitPath (strDropLen e.filename name.data.length)
      let fs1 : Fs := { fs with dirs := addDir fs.dirs [] }
      if canWrite fs1 out then
        generateLoop { fs1 with files := setFile fs1.files out e.content } rest name
      else
        (fs1, .fsError out)

/-- `generate(template, destination)` from the source, lines 178-213: first
`list()` (which may itself sync), then the not-found early return, then
`ZipFile(SYNC_LOCAL_FILE)` is opened — and never closed before returning —
and the entry loop runs over the archive. -/
def generateOp (s : CacheState) (fetch : FetchResult) (template : String) (fs : Fs) :
    GenOut :=
  match (listOp s fetch).result with
  | .crash => ⟨(listOp s fetch).state, fs, .crashed, (listOp s fetch).trace⟩
  | .ok names =>
    if template ∈ names then
      match (listOp s fetch).state.current with
      | some ar =>
        ⟨(listOp s fetch).state, (generateLoop fs ar (template ++ "/")).1,
          (generateLoop fs ar (template ++ "/")).2, (listOp s fetch).trace ++ [.opened]⟩
      | none => ⟨(listOp s fetch).state, fs, .crashed, (listOp s fetch).trace⟩
    else ⟨(listOp s fetch).state, fs, .notFound, (listOp s fetch).trace⟩

/-! ### Cache-mutating operation alphabet and reachability -/

/-- The cache-mutating operations: `sync` (with its `rollback` flag, the
confirmation answer and the fetch outcome) and `reset` (with the
confirmation answer). -/
inductive Op
  | syncCall (rollback : Bool) (answer : String) (fetch : FetchResult)
  | resetCall (answer : String)

def applyOp (s : CacheState) : Op → CacheState
  | .syncCall rb a f => (sync s rb a f).1
  | .resetCall a => (reset s a).1

/-- Cache states reachable from the empty cache by sync / rollback / reset. -/
inductive Reachable : CacheState → Prop
  | init : Reachable ⟨none, none, false⟩
  | step (s : CacheState) (op : Op) : Reachable s → Reachable (applyOp s op)

/-- Number of backup archives present (the layout has a single backup path,
`SYNC_LOCAL_FILE_OLD`). -/
def backupCount (s : CacheState) : Nat :=
  match s.backup with
  | some _ => 1
  | none => 0

/-- A backup only comes into existence as part of a non-rollback `sync` that
renames the existing current archive into the backup slot. -/
def backupCreationSound (s : CacheState) (op : Op) : Prop :=
  s.backup = none → ∀ b, (applyOp s op).backup = some b →
    s.current = some b ∧ ∃ a f, op = Op.syncCall false a f

/-- Modelled from the spec: the catalog §4.2 describes — only directory
entries whose path, minus the trailing separator, contains no further
separator (top-level templates only).  Used to compare the source's
`list()` against the spec's description. -/
def templateListSpec (ar : Archive) : List String :=
  (ar.filter fun e =>
      e.is_dir && !strContainsChar (strRemovesuffix e.filename "/") '/').map
    fun e => strRemovesuffix e.filename "/"

/-! ### Helper lemmas -/

theorem templateListLoop_eq (l : List ZipEntry) :
    templateListLoop l =
      (l.filter fun e => e.is_dir).map fun e => strRemovesuffix e.filename "/" := by
  induction l with
  | nil => rfl
  | cons e rest ih =>
    cases hd : e.is_dir <;> simp [templateListLoop, List.filter_cons, hd, ih]

theorem listOp_found (s : CacheState) (f : FetchResult) (names : List String)
    (h : (listOp s f).result = .ok names) (hne : names ≠ []) :
    (∃ ar, (listOp s f).state.current = some ar) ∧
      (listOp s f).trace = [.opened, .closed] := by
  rcases s with ⟨cur, bak, d⟩
  cases cur with
  | some ar => exact ⟨⟨ar, rfl⟩, rfl⟩
  | none =>
    cases f with
    | success ar => cases d <;> exact ⟨⟨ar, rfl⟩, rfl⟩
    | requestError =>
      exfalso
      cases d <;> simp [listOp, sync] at h <;> exact hne h
    | keyboardInterrupt =>
      exfalso
      cases d <;> simp [listOp, sync] at h

/-! ### Claim theorems -/

/-- C2 (counterexample to the claim as stated): on an archive holding the
nested directory entry `t/sub/`, `list()` returns `["t", "t/sub"]` — the
nested directory IS included, its stripped name still containing a
separator — while the spec-described catalog would return only `["t"]`. -/
theorem c2_list_counterexample :
    (listOp ⟨some [⟨"t/", []⟩, ⟨"t/sub/", []⟩, ⟨"t/a.txt", [7]⟩], none, true⟩
        .requestError).result = .ok ["t", "t/sub"] ∧
    templateListSpec [⟨"t/", []⟩, ⟨"t/sub/", []⟩, ⟨"t/a.txt", [7]⟩] = ["t"] ∧
    strContainsChar "t/sub" '/' = true := by decide

/-- C2 (amended): for every cached archive, `list()` returns the names
(trailing separator stripped) of ALL directory entries — at any depth, with
no filter on remaining separators — in archive entry order. -/
theorem c2_list_amended (s : CacheState) (f : FetchResult) (ar : Archive)
    (h : s.current = some ar) :
    (listOp s f).result =
      .ok ((ar.filter fun e => e.is_dir).map fun e => strRemovesuffix e.filename "/") := by
  rcases s with ⟨cur, bak, d⟩
  simp only at h
  subst h
  simp [listOp, templateListLoop_eq]

/-- C2 witness: the amended theorem applied to the two-template scenario. -/
theorem c2_list_amended_witness :
    (⟨some [⟨"web-api/", []⟩, ⟨"web-api/main.go", [1]⟩, ⟨"cli-tool/", []⟩], none,
        true⟩ : CacheState).current =
      some [⟨"web-api/", []⟩, ⟨"web-api/main.go", [1]⟩, ⟨"cli-tool/", []⟩] ∧
    (listOp ⟨some [⟨"web-api/", []⟩, ⟨"web-api/main.go", [1]⟩, ⟨"cli-tool/", []⟩], none,
        true⟩ .requestError).result =
      .ok (([⟨"web-api/", []⟩, ⟨"web-api/main.go", [1]⟩,
            (⟨"cli-tool/", []⟩ : ZipEntry)].filter fun e => e.is_dir).map
          fun e => strRemovesuffix e.filename "/") :=
  ⟨rfl, c2_list_amended _ .requestError _ rfl⟩

/-- C3 (counterexample to the claim as stated): a successful sync started
with a backup but no current archive returns `true` and leaves the stale
backup in place, so a backup exists although no current archive existed
before the call. -/
theorem c3_sync_counterexample :
    (sync ⟨none, some [⟨"x/", []⟩], true⟩ false "" (.success [])).2 = true ∧
    (sync ⟨none, some [⟨"x/", []⟩], true⟩ false "" (.success [])).1.backup =
      some [⟨"x/", []⟩] ∧
    (⟨none, some [⟨"x/", []⟩], true⟩ : CacheState).current = none := by decide

/-- C3 (amended): a sync whose download completes returns success and leaves
as backup: the pre-sync current archive when one existed, and otherwise the
pre-sync backup unchanged (a stale backup is NOT removed).  So after such a
sync a backup exists iff a current archive or a backup existed before. -/
theorem c3_sync_amended (s : CacheState) (ar : Archive) :
    (sync s false "" (.success ar)).2 = true ∧
    (sync s false "" (.success ar)).1.current = some ar ∧
    (sync s false "" (.success ar)).1.backup =
      (if s.current.isSome then s.current else s.backup) := by
  rcases s with ⟨cur, bak, d⟩
  cases cur <;> cases d <;> simp [sync]

/-- C4 (counterexample to the claim as stated): `reset` with a current
archive present and a declined (empty) confirmation leaves the state
unchanged but returns `False`, not the success outcome. -/
theorem c4_decline_counterexample :
    reset ⟨some [⟨"t/", []⟩], none, true⟩ "" =
      (⟨some [⟨"t/", []⟩], none, true⟩, some false) ∧
    (reset ⟨some [⟨"t/", []⟩], none, true⟩ "").2 ≠ some true := by decide

/-- C4 (amended): a declined confirmation (empty answer or `n`) leaves the
cache state unchanged for both operations, but only rollback returns the
success value `True`; `reset` returns `False`. -/
theorem c4_decline_amended (s t : CacheState) (a : String) (f : FetchResult)
    (hd : declined a = true) (hb : s.backup.isSome = true)
    (hc : t.current.isSome = true) :
    sync s true a f = (s, true) ∧ reset t a = (t, some false) := by
  rcases s with ⟨cur, bak, d⟩
  rcases t with ⟨cur2, bak2, d2⟩
  cases bak with
  | none => simp at hb
  | some b =>
    cases cur2 with
    | none => simp at hc
    | some c => simp [sync, reset, hd]

/-- C4 witness: the amended theorem applied at `answer = "n"`. -/
theorem c4_decline_amended_witness :
    declined "n" = true ∧
    (⟨none, some [], true⟩ : CacheState).backup.isSome = true ∧
    (⟨some [], none, true⟩ : CacheState).current.isSome = true ∧
    (sync ⟨none, some [], true⟩ true "n" .requestError = (⟨none, some [], true⟩, true) ∧
      reset ⟨some [], none, true⟩ "n" = (⟨some [], none, true⟩, some false)) :=
  ⟨by decide, by decide, by decide,
    c4_decline_amended _ _ _ .requestError (by decide) (by decide) (by decide)⟩

/-- C5: for every template name not in the result of `list()`, `generate`
returns the not-found failure and writes nothing under the destination. -/
theorem c5_generate_not_found (s : CacheState) (f : FetchResult) (t : String)
    (fs : Fs) (names : List String)
    (h1 : (listOp s f).result = .ok names) (h2 : t ∉ names) :
    (generateOp s f t fs).fs = fs ∧ (generateOp s f t fs).result = .notFound := by
  unfold generateOp
  rw [h1]
  simp [h2]

/-- C5 witness: a template name absent from the catalog. -/
theorem c5_generate_not_found_witness :
    (listOp ⟨some [⟨"t/", []⟩], none, true⟩ .requestError).result = .ok ["t"] ∧
    "x" ∉ ["t"] ∧
    ((generateOp ⟨some [⟨"t/", []⟩], none, true⟩ .requestError "x" ⟨[], []⟩).fs =
        (⟨[], []⟩ : Fs) ∧
      (generateOp ⟨some [⟨"t/", []⟩], none, true⟩ .requestError "x" ⟨[], []⟩).result =
        .notFound) :=
  ⟨by decide, by decide,
    c5_generate_not_found ⟨some [⟨"t/", []⟩], none, true⟩ .requestError "x" ⟨[], []⟩
      ["t"] (by decide) (by decide)⟩

/-- C6: `rollback()` with no backup present is a success no-op: the state —
current archive included — is returned unchanged, with result `True`. -/
theorem c6_rollback_no_backup (s : CacheState) (a : String) (f : FetchResult)
    (h : s.backup = none) : sync s true a f = (s, true) := by
  simp [sync, h]

/-- C6 witness: rollback on a cache holding only a current archive. -/
theorem c6_rollback_no_backup_witness :
    (⟨some [⟨"t/", []⟩], none, true⟩ : CacheState).backup = none ∧
    sync ⟨some [⟨"t/", []⟩], none, true⟩ true "Y" .requestError =
      (⟨some [⟨"t/", []⟩], none, true⟩, true) :=
  ⟨rfl, c6_rollback_no_backup _ "Y" .requestError rfl⟩

/-- C7: `reset` with no current archive is a no-op; on a populated cache
with confirmation it removes the whole cache directory (current, backup and
the directory itself), after which `list()` finds no current archive,
triggers a fresh sync, and reports the freshly downloaded catalog. -/
theorem c7_reset_theorem (s t : CacheState) (a : String) (c : Archive) (ar : Archive)
    (hs : s.current = none) (ht : t.current = some c) (hd : declined a = false) :
    reset s a = (s, none) ∧
    reset t a = (⟨none, none, false⟩, some true) ∧
    listOp (reset t a).1 (.success ar) =
      ⟨⟨some ar, none, true⟩, .ok (templateListLoop ar), [.opened, .closed]⟩ := by
  rcases s with ⟨cur, bak, d⟩
  rcases t with ⟨cur2, bak2, d2⟩
  simp only at hs ht
  subst hs
  subst ht
  refine ⟨by simp [reset], by simp [reset, hd], ?_⟩
  simp [reset, hd, listOp, sync]

/-- C7 witness: reset on an empty cache and on a populated one. -/
theorem c7_reset_theorem_witness :
    (⟨none, some [], true⟩ : CacheState).current = none ∧
    (⟨some [⟨"t/", []⟩], some [], true⟩ : CacheState).current = some [⟨"t/", []⟩] ∧
    declined "Y" = false ∧
    (reset ⟨none, some [], true⟩ "Y" = (⟨none, some [], true⟩, none) ∧
      reset ⟨some [⟨"t/", []⟩], some [], true⟩ "Y" = (⟨none, none, false⟩, some true) ∧
      listOp (reset ⟨some [⟨"t/", []⟩], some [], true⟩ "Y").1 (.success [⟨"u/", []⟩]) =
        ⟨⟨some [⟨"u/", []⟩], none, true⟩, .ok (templateListLoop [⟨"u/", []⟩]),
          [.opened, .closed]⟩) :=
  ⟨rfl, rfl, by decide,
    c7_reset_theorem _ _ "Y" _ _ rfl rfl (by decide)⟩

/-- C8: in every reachable cache state at most one backup exists (the layout
has a single backup slot), and a backup only comes into existence through a
non-rollback sync renaming the existing current archive into the backup
slot. -/
theorem c8_backup_invariant (s : CacheState) (op : Op) (hr : Reachable s) :
    backupCount s ≤ 1 ∧ backupCreationSound s op := by
  refine ⟨?_, ?_⟩
  · rcases s with ⟨cur, bak, d⟩
    cases bak <;> simp [backupCount]
  · intro h1 b h2
    cases op with
    | syncCall rb a f =>
      cases rb with
      | true =>
        exfalso
        simp [applyOp, sync, h1] at h2
      | false =>
        rcases s with ⟨cur, bak, d⟩
        simp only at h1
        subst h1
        cases cur with
        | none =>
          exfalso
          cases f <;> cases d <;> simp [applyOp, sync] at h2
        | some c =>
          have hb : c = b := by
            cases f <;> simpa [applyOp, sync] using h2
          subst hb
          exact ⟨rfl, a, f, rfl⟩
    | resetCall a =>
      exfalso
      rcases s with ⟨cur, bak, d⟩
      simp only at h1
      subst h1
      cases cur with
      | none => simp [applyOp, reset] at h2
      | some c =>
        by_cases hd : declined a = true <;> simp [applyOp, reset, hd] at h2

/-- C8 witness: the invariant applied to a reachable one-sync state. -/
theorem c8_backup_invariant_witness :
    backupCount ⟨some [], none, true⟩ ≤ 1 ∧
    backupCreationSound ⟨some [], none, true⟩ (Op.syncCall false "" (.success [⟨"t/", []⟩])) :=
  c8_backup_invariant _ _
    (Reachable.step ⟨none, none, false⟩ (Op.syncCall false "" (.success [])) Reachable.init)

/-- C10: a `KeyboardInterrupt` raised before streaming begins makes `sync`
return the success value `True` although nothing was downloaded; the
pre-existing current archive has already been renamed into the backup slot,
so the cache is left with a backup but no current archive. -/
theorem c10_interrupt_reports_success (s : CacheState) (c : Archive)
    (h : s.current = some c) :
    sync s false "" .keyboardInterrupt = (⟨none, some c, s.dirExists⟩, true) := by
  rcases s with ⟨cur, bak, d⟩
  simp only at h
  subst h
  simp [sync]

/-- C10 witness: interrupting a sync from a cache with a current archive. -/
theorem c10_interrupt_reports_success_witness :
    (⟨some [⟨"t/", []⟩], none, true⟩ : CacheState).current = some [⟨"t/", []⟩] ∧
    sync ⟨some [⟨"t/", []⟩], none, true⟩ false "" .keyboardInterrupt =
      (⟨none, some [⟨"t/", []⟩], true⟩, true) :=
  ⟨rfl, c10_interrupt_reports_success _ _ rfl⟩

/-- C9 (counterexample to the claim as stated): a `generate` call on a found
template ends with the archive handle trace `[opened, closed, opened]` —
the `list()` call inside it opens and closes the archive, but `generate`
itself opens the archive again and returns without closing it. -/
theorem c9_handle_counterexample :
    (generateOp ⟨some [⟨"t/", []⟩, ⟨"t/a.txt", [65]⟩], none, true⟩ .requestError
        "t" ⟨[], []⟩).trace = [.opened, .closed, .opened] ∧
    handlesClosed
      (generateOp ⟨some [⟨"t/", []⟩, ⟨"t/a.txt", [65]⟩], none, true⟩ .requestError
        "t" ⟨[], []⟩).trace = false := by decide

/-- C9 (amended): `list()` always closes every archive handle it opens
before returning, but `generate` on a found template leaves its archive
handle open when it returns. -/
theorem c9_handle_amended (s : CacheState) (f : FetchResult) (t : String)
    (fs : Fs) (names : List String)
    (h1 : (listOp s f).result = .ok names) (h2 : t ∈ names) :
    handlesClosed (listOp s f).trace = true ∧
    handlesClosed (generateOp s f t fs).trace = false := by
  have hne : names ≠ [] := by
    rintro rfl
    simp at h2
  obtain ⟨⟨ar, har⟩, htr⟩ := listOp_found s f names h1 hne
  refine ⟨by rw [htr]; decide, ?_⟩
  unfold generateOp
  rw [h1]
  simp only [h2, if_true, har, htr]
  decide

/-- C9 witness: the amended theorem at a concrete found template. -/
theorem c9_handle_amended_witness :
    (listOp ⟨some [⟨"t/", []⟩, ⟨"t/a.txt", [65]⟩], none, true⟩ .requestError).result =
      .ok ["t"] ∧
    "t" ∈ ["t"] ∧
    (handlesClosed
        (listOp ⟨some [⟨"t/", []⟩, ⟨"t/a.txt", [65]⟩], none, true⟩ .requestError).trace =
        true ∧
      handlesClosed
        (generateOp ⟨some [⟨"t/", []⟩, ⟨"t/a.txt", [65]⟩], none, true⟩ .requestError
          "t" ⟨[], [[]]⟩).trace = false) :=
  ⟨by decide, by decide,
    c9_handle_amended ⟨some [⟨"t/", []⟩, ⟨"t/a.txt", [65]⟩], none, true⟩ .requestError
      "t" ⟨[], [[]]⟩ ["t"] (by decide) (by decide)⟩

/-- C1 (counterexample to the claim as stated): on a template holding the
top-level file `a.txt` and the nested file `sub/b.txt`, `generate` into a
fresh destination does NOT succeed — opening `dest/sub/b.txt` fails because
the parent directory `dest/sub` was never created — and no file is produced
at `sub/b.txt`; only `a.txt` was written before the failure. -/
theorem c1_generate_counterexample :
    (generateOp ⟨some [⟨"t/", []⟩, ⟨"t/a.txt", [65]⟩, ⟨"t/sub/b.txt", [66]⟩], none, true⟩
        .requestError "t" ⟨[], []⟩).result ≠ .ok ∧
    lookupFile
      (generateOp ⟨some [⟨"t/", []⟩, ⟨"t/a.txt", [65]⟩, ⟨"t/sub/b.txt", [66]⟩], none, true⟩
        .requestError "t" ⟨[], []⟩).fs ["sub", "b.txt"] = none ∧
    lookupFile
      (generateOp ⟨some [⟨"t/", []⟩, ⟨"t/a.txt", [65]⟩, ⟨"t/sub/b.txt", [66]⟩], none, true⟩
        .requestError "t" ⟨[], []⟩).fs ["a.txt"] = some [65] := by decide

/-- C1 (amended): on a template holding `a.txt` (content `ca`) and
`sub/b.txt` (content `cb`), `generate` into a fresh destination writes
`dest/a.txt` byte-identical to the archive entry, produces nothing for the
bare directory-marker entry, then aborts with a filesystem error at
`sub/b.txt` because only the destination root directory is ever created, so
the destination holds exactly the file `a.txt`. -/
theorem c1_generate_amended (ca cb : List Nat) (s : CacheState) (f : FetchResult)
    (h : s.current = some [⟨"t/", []⟩, ⟨"t/a.txt", ca⟩, ⟨"t/sub/b.txt", cb⟩]) :
    (generateOp s f "t" ⟨[], []⟩).result = .fsError ["sub", "b.txt"] ∧
    (generateOp s f "t" ⟨[], []⟩).fs.files = [(["a.txt"], ca)] ∧
    (generateOp s f "t" ⟨[], []⟩).fs.dirs = [[]] := by
  rcases s with ⟨cur, bak, d⟩
  simp only at h
  subst h
  exact ⟨rfl, rfl, rfl⟩

/-- C1 witness: the amended theorem at concrete byte contents. -/
theorem c1_generate_amended_witness :
    (⟨some [⟨"t/", []⟩, ⟨"t/a.txt", [10]⟩, ⟨"t/sub/b.txt", [20]⟩], some [],
        true⟩ : CacheState).current =
      some [⟨"t/", []⟩, ⟨"t/a.txt", [10]⟩, ⟨"t/sub/b.txt", [20]⟩] ∧
    ((generateOp ⟨some [⟨"t/", []⟩, ⟨"t/a.txt", [10]⟩, ⟨"t/sub/b.txt", [20]⟩], some [],
          true⟩ .keyboardInterrupt "t" ⟨[], []⟩).result = .fsError ["sub", "b.txt"] ∧
      (generateOp ⟨some [⟨"t/", []⟩, ⟨"t/a.txt", [10]⟩, ⟨"t/sub/b.txt", [20]⟩], some [],
          true⟩ .keyboardInterrupt "t" ⟨[], []⟩).fs.files = [(["a.txt"], [10])] ∧
      (generateOp ⟨some [⟨"t/", []⟩, ⟨"t/a.txt", [10]⟩, ⟨"t/sub/b.txt", [20]⟩], some [],
          true⟩ .keyboardInterrupt "t" ⟨[], []⟩).fs.dirs = [[]]) :=
  ⟨rfl, c1_generate_amended [10] [20] _ .keyboardInterrupt rfl⟩

end Srcinit
